import Mathlib

/-! Verification of the grammar-checker service core (src/main.py) against its
natural-language specification.  The Python code is shallowly embedded:

* the Pydantic models `Correction`, `Answer`, `ApiResponse` become structures;
* `HTTPException(status_code, detail)` becomes the `HTTPException` structure,
  and a function that may raise it returns `Except HTTPException _`;
* the nondeterministic upstream (the `ollama.chat` call and the JSON
  parse/validation of its payload) is abstracted as oracles: a `ChatOutcome`
  per call and a `parse : String → ParseResult` function;
* `get_corrections` is a total function of its text and those oracles;
* `exception_wrapper`'s `while` loop becomes a recursive function on the
  decreasing measure `max_retries - retries`; alongside the result it returns
  the number of times the single-attempt function was invoked;
* the endpoint handlers `correct_single_text` and `correct_batch_texts` are
  functions of the request payload and the per-call oracles.
-/

/-- Python model `Correction`: correction data of the given sentence. -/
structure Correction where
  wrong_word : String
  correct_word : String
  reason_of_error : String
deriving DecidableEq, Repr

/-- Python model `Answer`: structure expected back directly from Ollama. -/
structure Answer where
  corrections : List Correction
  correct_sentence : String
deriving DecidableEq, Repr

/-- Python model `ApiResponse`: `Answer` plus the original sentence
(`class ApiResponse(Answer)` lists `corrections`, `correct_sentence`,
then adds `original_sentence`). -/
structure ApiResponse where
  corrections : List Correction
  correct_sentence : String
  original_sentence : String
deriving DecidableEq, Repr

/-- FastAPI `HTTPException(status_code=..., detail=...)`. -/
structure HTTPException where
  status_code : Nat
  detail : String
deriving DecidableEq, Repr

/-- Outcome of one call to `ollama.chat` in `get_corrections`.
`ok raw content` is a normal return: `raw` stands for the textual rendering
of the whole response object (used in the error detail of the
`Unexpected Ollama response structure` branch) and `content` is
`response["message"]["content"]` when the chain
`response and response.get("message") and response["message"].get("content")`
reaches an existing content value (`none` collapses every missing or falsy
link of that chain except a present-but-empty content string, which is kept
as `some ""` because Python treats `""` as falsy too).
`responseError` is `ollama.ResponseError`; `otherError` is any other
exception escaping the call, rendered as a message string. -/
inductive ChatOutcome where
  | ok (raw : String) (content : Option String)
  | responseError (status_code : Nat) (error : String)
  | otherError (msg : String)
deriving DecidableEq, Repr

/-- Outcome of `Answer.model_validate_json(content)`:
a validated `Answer`, a `json.JSONDecodeError`, or any other exception
(Pydantic validation failure). -/
inductive ParseResult where
  | ok (a : Answer)
  | jsonError
  | validationError
deriving DecidableEq, Repr

/-- Embedding of `get_corrections(text)` (src/main.py lines 64-149).
`parse` abstracts `Answer.model_validate_json`; `ch` is the outcome of the
single `chat` call this invocation makes. -/
def get_corrections (text : String) (parse : String → ParseResult)
    (ch : ChatOutcome) : Except HTTPException ApiResponse :=
  match ch with
  | .responseError _ err =>
      .error ⟨503, "Ollama service error: " ++ err⟩
  | .otherError m =>
      .error ⟨500, "Internal server error during correction: " ++ m⟩
  | .ok raw content =>
      match content with
      | some c =>
          if c = "" then
            .error ⟨502, "Bad response from correction service: Unexpected Ollama response structure: " ++ raw⟩
          else
            match parse c with
            | .ok a =>
                .ok ⟨a.corrections, a.correct_sentence, text⟩
            | .jsonError =>
                .error ⟨502, "Bad response from correction service: Ollama response was not valid JSON: " ++ c⟩
            | .validationError =>
                .error ⟨502, "Bad response from correction service: Ollama response did not match expected format: " ++ c⟩
      | none =>
          .error ⟨502, "Bad response from correction service: Unexpected Ollama response structure: " ++ raw⟩

/-- Outcome of one invocation of the single-attempt correction function as
seen by `exception_wrapper`: a successful `ApiResponse` dict, a raised
`HTTPException`, or any other raised exception. -/
inductive AttemptOutcome where
  | ok (r : ApiResponse)
  | http (e : HTTPException)
  | exc (msg : String)
deriving DecidableEq, Repr

deriving instance DecidableEq for Except

/-- The `while retries < max_retries` loop of `exception_wrapper`
(src/main.py lines 157-196).  `oracle n` is the outcome of the (n+1)-th
invocation of `get_corrections`; `retries` is the Python loop variable and
`calls` counts invocations made so far.  The third argument is the loop's
termination measure `max_retries - retries`, carried explicitly so the
recursion is structural: the loop guard `retries < max_retries` holds
exactly when the fuel is positive, and each iteration that continues the
loop increments `retries` and decrements the fuel.  Returns the wrapper's
result (`Except.error` standing for a raised `HTTPException`) together with
the total number of invocations of the single-attempt function. -/
def exception_wrapper_go (oracle : Nat → AttemptOutcome) (max_retries : Nat) :
    Nat → Nat → Nat → Except HTTPException ApiResponse × Nat
  | _retries, calls, 0 =>
      (.error ⟨500, "Correction failed after multiple retries without specific error."⟩, calls)
  | retries, calls, fuel + 1 =>
      match oracle calls with
      | .ok r => (.ok r, calls + 1)
      | .http e =>
          if e.status_code = 503 ∨ e.status_code = 504 then
            if max_retries < retries + 1 then
              (.error e, calls + 1)
            else
              exception_wrapper_go oracle max_retries (retries + 1) (calls + 1) fuel
          else
            (.error e, calls + 1)
      | .exc m =>
          (.error ⟨500, "Unexpected internal server error: " ++ m⟩, calls + 1)

/-- Embedding of `exception_wrapper(text, max_retries)` (src/main.py
lines 153-196): the loop started with `retries = 0`, no calls made, and
fuel `max_retries - 0`. -/
def exception_wrapper (oracle : Nat → AttemptOutcome) (max_retries : Nat) :
    Except HTTPException ApiResponse × Nat :=
  exception_wrapper_go oracle max_retries 0 0 max_retries

example :
    exception_wrapper (fun _ => .ok ⟨[], "ok", "t"⟩) 5 =
      (.ok ⟨[], "ok", "t"⟩, 1) := by decide

example :
    exception_wrapper (fun n => if n < 2 then .http ⟨503, "e"⟩ else .ok ⟨[], "ok", "t"⟩) 5 =
      (.ok ⟨[], "ok", "t"⟩, 3) := by decide

example :
    exception_wrapper (fun _ => .http ⟨503, "e"⟩) 5 =
      (.error ⟨500, "Correction failed after multiple retries without specific error."⟩, 5) := by
  decide

/-- Python `not text.strip()`: true exactly when every character of the
string is whitespace (so also for the empty string).  Python `str.strip()`
strips the ASCII whitespace characters space, tab, newline, carriage
return, vertical tab and form feed (plus further Unicode space characters,
which the embedding restricts to ASCII). -/
def py_strip_empty (s : String) : Bool :=
  s.data.all fun c =>
    c == ' ' || c == '\t' || c == '\n' || c == '\r' || c == '\x0b' || c == '\x0c'

example : py_strip_empty "" = true := by decide
example : py_strip_empty "  \t\n " = true := by decide
example : py_strip_empty " a " = false := by decide

/-- Embedding of the endpoint `correct_single_text` (src/main.py
lines 214-234): reject blank text with a 400 before anything else,
otherwise run `exception_wrapper(input_data.text)` with its default
`max_retries = 5`.  The `Nat` component is the number of invocations of
the single-attempt function (0 when the wrapper was never entered). -/
def correct_single_text (oracle : Nat → AttemptOutcome) (text : String) :
    Except HTTPException ApiResponse × Nat :=
  if py_strip_empty text then
    (.error ⟨400, "Input text cannot be empty."⟩, 0)
  else
    exception_wrapper oracle 5

/-- The outcome of one invocation of `get_corrections`, as observed by
`exception_wrapper`: in the real program every attempt either returns a
dict or raises an `HTTPException`, never any other exception.  `chat n` is
the outcome of the Ollama call made by the (n+1)-th invocation. -/
def get_corrections_oracle (text : String) (parse : String → ParseResult)
    (chat : Nat → ChatOutcome) : Nat → AttemptOutcome :=
  fun n =>
    match get_corrections text parse (chat n) with
    | .ok r => .ok r
    | .error e => .http e

/-- One iteration of the `for text in input_data.texts` loop of
`correct_batch_texts` (src/main.py lines 253-291): blank items get the
blank placeholder without entering the wrapper; otherwise the wrapper's
success dict is appended, and a raised `HTTPException` is converted into
the in-band error placeholder.  The `Nat` component counts invocations of
`get_corrections` (equivalently Ollama calls) made for this item. -/
def processBatchItem (parse : String → ParseResult) (chat : Nat → ChatOutcome)
    (text : String) : ApiResponse × Nat :=
  if py_strip_empty text then
    (⟨[], "", text⟩, 0)
  else
    match exception_wrapper (get_corrections_oracle text parse chat) 5 with
    | (.ok r, n) => (r, n)
    | (.error e, n) => (⟨[], "Error: " ++ e.detail, text⟩, n)

/-- The batch loop with its running item index: item `i` of the list uses
the chat oracle `chatB i`. -/
def correct_batch_go (chatB : Nat → Nat → ChatOutcome)
    (parse : String → ParseResult) : Nat → List String → List ApiResponse
  | _, [] => []
  | i, t :: ts =>
      (processBatchItem parse (chatB i) t).1 :: correct_batch_go chatB parse (i + 1) ts

/-- Embedding of the endpoint `correct_batch_texts` (src/main.py
lines 244-293): an empty list is rejected with a 400; otherwise every item
is processed in order and the full-length result list is returned
(`Except.ok` standing for the 200 response). -/
def correct_batch_texts (chatB : Nat → Nat → ChatOutcome)
    (parse : String → ParseResult) (texts : List String) :
    Except HTTPException (List ApiResponse) :=
  if texts = [] then
    .error ⟨400, "Input text list cannot be empty."⟩
  else
    .ok (correct_batch_go chatB parse 0 texts)

/-! Helper lemmas shared by the claim theorems. -/

/-- A successful `get_corrections` always carries the input text as
`original_sentence`. -/
lemma get_corrections_ok_original (text : String) (parse : String → ParseResult)
    (ch : ChatOutcome) (r : ApiResponse)
    (h : get_corrections text parse ch = .ok r) : r.original_sentence = text := by
  unfold get_corrections at h
  cases ch with
  | ok raw content =>
      cases content with
      | some c =>
          by_cases hc : c = ""
          · simp [hc] at h
          · simp [hc] at h
            cases hp : parse c with
            | ok a => rw [hp] at h; simp at h; rw [← h]
            | jsonError => rw [hp] at h; simp at h
            | validationError => rw [hp] at h; simp at h
      | none => simp at h
  | responseError sc err => simp at h
  | otherError m => simp at h

/-- A success of the retry loop is a success of some invocation of the
single-attempt oracle. -/
lemma exception_wrapper_go_ok (oracle : Nat → AttemptOutcome) (mr : Nat) :
    ∀ fuel retries calls resp n,
      exception_wrapper_go oracle mr retries calls fuel = (.ok resp, n) →
      ∃ m, oracle m = .ok resp := by
  intro fuel
  induction fuel with
  | zero =>
      intro retries calls resp n h
      simp [exception_wrapper_go] at h
  | succ fuel ih =>
      intro retries calls resp n h
      simp only [exception_wrapper_go] at h
      cases hoc : oracle calls with
      | ok r =>
          rw [hoc] at h
          simp at h
          exact ⟨calls, by rw [hoc, h.1]⟩
      | http e =>
          rw [hoc] at h
          by_cases h503 : e.status_code = 503 ∨ e.status_code = 504
          · simp only [if_pos h503] at h
            by_cases hgt : mr < retries + 1
            · simp [if_pos hgt] at h
            · simp only [if_neg hgt] at h
              exact ih _ _ _ _ h
          · simp [if_neg h503] at h
      | exc m =>
          rw [hoc] at h
          simp at h

/-- Unfolding of a successful `get_corrections_oracle` outcome. -/
lemma get_corrections_oracle_ok (text : String) (parse : String → ParseResult)
    (chat : Nat → ChatOutcome) (m : Nat) (r : ApiResponse)
    (h : get_corrections_oracle text parse chat m = .ok r) :
    get_corrections text parse (chat m) = .ok r := by
  unfold get_corrections_oracle at h
  cases hg : get_corrections text parse (chat m) with
  | ok r2 => rw [hg] at h; simp at h; rw [h]
  | error e => rw [hg] at h; simp at h

/-- Every batch item result carries the raw input as `original_sentence`,
whatever the upstream did. -/
lemma processBatchItem_original (parse : String → ParseResult)
    (chat : Nat → ChatOutcome) (t : String) :
    (processBatchItem parse chat t).1.original_sentence = t := by
  unfold processBatchItem
  by_cases hb : py_strip_empty t
  · simp [hb]
  · simp only [hb, Bool.false_eq_true, if_false]
    rcases hw : exception_wrapper (get_corrections_oracle t parse chat) 5 with ⟨res, n⟩
    cases res with
    | ok r =>
        obtain ⟨m, hm⟩ := exception_wrapper_go_ok _ _ _ _ _ _ _ hw
        simp only []
        exact get_corrections_ok_original t parse (chat m) r
          (get_corrections_oracle_ok t parse chat m r hm)
    | error e => simp

/-- The batch loop returns one result per input. -/
lemma correct_batch_go_length (chatB : Nat → Nat → ChatOutcome)
    (parse : String → ParseResult) :
    ∀ ts i, (correct_batch_go chatB parse i ts).length = ts.length := by
  intro ts
  induction ts with
  | nil => intro i; simp [correct_batch_go]
  | cons t ts ih => intro i; simp [correct_batch_go, ih]

/-- Element `j` of the batch loop's output is the result of processing
input `j` with the chat oracle of item `i + j`. -/
lemma correct_batch_go_get (chatB : Nat → Nat → ChatOutcome)
    (parse : String → ParseResult) :
    ∀ ts i j (h : j < ts.length)
      (h2 : j < (correct_batch_go chatB parse i ts).length),
      (correct_batch_go chatB parse i ts).get ⟨j, h2⟩ =
        (processBatchItem parse (chatB (i + j)) (ts.get ⟨j, h⟩)).1 := by
  intro ts
  induction ts with
  | nil => intro i j h h2; simp at h
  | cons t ts ih =>
      intro i j h h2
      cases j with
      | zero => simp [correct_batch_go]
      | succ j =>
          have hj : j < ts.length := by simpa using h
          have hj2 : j < (correct_batch_go chatB parse (i + 1) ts).length := by
            rw [correct_batch_go_length]; exact hj
          have := ih (i + 1) j hj hj2
          simp only [correct_batch_go, List.get_cons_succ]
          rw [this]
          have harith : i + 1 + j = i + (j + 1) := by omega
          rw [harith]

/-! Claim theorems. -/

/-- A simulated single-attempt function that raises a retryable 503 on
exactly the first `k` invocations and succeeds from invocation `k+1` on. -/
def upstream503k (k : Nat) : Nat → AttemptOutcome :=
  fun n =>
    if n < k then .http ⟨503, "Ollama service error: attempt failed"⟩
    else .ok ⟨[], "All good.", "some text"⟩

/-- C1: the claim holds for k up to 4 but fails at k = max_retries = 5.
With the default max_retries = 5 and an upstream failing with a retryable
503 on exactly the first 5 invocations, the 6th invocation would succeed,
yet `exception_wrapper` makes only 5 invocations (the loop runs while
retries < max_retries) and raises the generic 500 instead of returning the
success; for k = 4 the claimed behavior (success after k+1 = 5
invocations) does hold. -/
theorem c1_retry_success_boundary_violated :
    upstream503k 5 5 = .ok ⟨[], "All good.", "some text"⟩ ∧
    exception_wrapper (upstream503k 5) 5 =
      (.error ⟨500, "Correction failed after multiple retries without specific error."⟩, 5) ∧
    exception_wrapper (upstream503k 4) 5 = (.ok ⟨[], "All good.", "some text"⟩, 5) := by
  decide

/-- A simulated single-attempt function that raises a retryable 503 on
every invocation, with a detail identifying the invocation. -/
def upstreamAll503 : Nat → AttemptOutcome :=
  fun n => .http ⟨503, "Ollama service error: outage " ++ Nat.repr n⟩

/-- C2: with every invocation failing with a retryable 503 and the default
max_retries = 5, `exception_wrapper` makes exactly 5 invocations (not
max_retries + 1 = 6) and raises the generic 500 with a fixed detail (not
the last failure's 503 status and detail): the loop exits when retries
reaches max_retries and falls through to the final generic raise. -/
theorem c2_exhaustion_surfaces_generic_500 :
    exception_wrapper upstreamAll503 5 =
      (.error ⟨500, "Correction failed after multiple retries without specific error."⟩, 5) := by
  decide

/-- C3: if the first invocation fails with any non-retryable error (any
HTTP status other than 503/504, which covers the 502 and 500 raised by
`get_corrections`, or any unclassified exception), the wrapper makes
exactly one invocation and surfaces that failure: the HTTPException is
re-raised as is, and an unclassified exception is raised as the 500
embedding it. -/
theorem c3_non_retryable_fails_after_one_attempt
    (oracle : Nat → AttemptOutcome) (mr : Nat) (hmr : 0 < mr) :
    (∀ e, oracle 0 = .http e → e.status_code ≠ 503 → e.status_code ≠ 504 →
      exception_wrapper oracle mr = (.error e, 1)) ∧
    (∀ m, oracle 0 = .exc m →
      exception_wrapper oracle mr =
        (.error ⟨500, "Unexpected internal server error: " ++ m⟩, 1)) := by
  cases mr with
  | zero => omega
  | succ mr =>
      constructor
      · intro e h0 h503 h504
        unfold exception_wrapper
        simp only [exception_wrapper_go]
        rw [h0]
        simp [h503, h504]
      · intro m h0
        unfold exception_wrapper
        simp only [exception_wrapper_go]
        rw [h0]

/-- Witness for C3 at a concrete non-retryable 502 failure. -/
theorem c3_witness :
    exception_wrapper (fun _ => .http ⟨502, "Bad response from correction service: bad"⟩) 5 =
      (.error ⟨502, "Bad response from correction service: bad"⟩, 1) :=
  (c3_non_retryable_fails_after_one_attempt
      (fun _ => .http ⟨502, "Bad response from correction service: bad"⟩) 5 (by decide)).1
    ⟨502, "Bad response from correction service: bad"⟩ rfl (by decide) (by decide)

/-- C7: `get_corrections` classifies failures exactly as claimed: an
`ollama.ResponseError` becomes the retryable 503; a JSON-parse failure, a
schema-validation failure, and a response envelope with missing (or falsy)
message/content all become the non-retryable 502; any other exception
becomes the non-retryable 500. -/
theorem c7_error_classification (text : String) (parse : String → ParseResult) :
    (∀ sc err, get_corrections text parse (.responseError sc err) =
      .error ⟨503, "Ollama service error: " ++ err⟩) ∧
    (∀ raw c, c ≠ "" → parse c = .jsonError →
      get_corrections text parse (.ok raw (some c)) =
        .error ⟨502, "Bad response from correction service: Ollama response was not valid JSON: " ++ c⟩) ∧
    (∀ raw c, c ≠ "" → parse c = .validationError →
      get_corrections text parse (.ok raw (some c)) =
        .error ⟨502, "Bad response from correction service: Ollama response did not match expected format: " ++ c⟩) ∧
    (∀ raw, get_corrections text parse (.ok raw none) =
      .error ⟨502, "Bad response from correction service: Unexpected Ollama response structure: " ++ raw⟩) ∧
    (∀ raw, get_corrections text parse (.ok raw (some "")) =
      .error ⟨502, "Bad response from correction service: Unexpected Ollama response structure: " ++ raw⟩) ∧
    (∀ m, get_corrections text parse (.otherError m) =
      .error ⟨500, "Internal server error during correction: " ++ m⟩) := by
  refine ⟨?_, ?_, ?_, ?_, ?_, ?_⟩
  · intro sc err; simp [get_corrections]
  · intro raw c hc hp; simp [get_corrections, hc, hp]
  · intro raw c hc hp; simp [get_corrections, hc, hp]
  · intro raw; simp [get_corrections]
  · intro raw; simp [get_corrections]
  · intro m; simp [get_corrections]

/-- Witness for C7: the parse-failure conjuncts applied at concrete
payloads. -/
theorem c7_witness :
    get_corrections "hello" (fun _ => ParseResult.jsonError) (.ok "raw" (some "oops")) =
      .error ⟨502, "Bad response from correction service: Ollama response was not valid JSON: oops"⟩ ∧
    get_corrections "hello" (fun _ => ParseResult.validationError) (.ok "raw" (some "oops")) =
      .error ⟨502, "Bad response from correction service: Ollama response did not match expected format: oops"⟩ :=
  ⟨(c7_error_classification "hello" (fun _ => ParseResult.jsonError)).2.1
      "raw" "oops" (by decide) rfl,
   (c7_error_classification "hello" (fun _ => ParseResult.validationError)).2.2.1
      "raw" "oops" (by decide) rfl⟩

/-- C8: a successful `get_corrections` returns an `ApiResponse` whose
`original_sentence` is exactly the input text, and whose `corrections` and
`correct_sentence` are copied unchanged from the `Answer` parsed out of
the upstream payload. -/
theorem c8_success_preserves_input_and_answer (text : String)
    (parse : String → ParseResult) (ch : ChatOutcome) (r : ApiResponse)
    (h : get_corrections text parse ch = .ok r) :
    r.original_sentence = text ∧
    ∃ raw c a, ch = .ok raw (some c) ∧ parse c = .ok a ∧
      r.corrections = a.corrections ∧ r.correct_sentence = a.correct_sentence := by
  refine ⟨get_corrections_ok_original text parse ch r h, ?_⟩
  unfold get_corrections at h
  cases ch with
  | ok raw content =>
      cases content with
      | some c =>
          by_cases hc : c = ""
          · simp [hc] at h
          · simp only [hc, if_neg] at h
            cases hp : parse c with
            | ok a =>
                rw [hp] at h
                simp at h
                exact ⟨raw, c, a, rfl, hp, by rw [← h], by rw [← h]⟩
            | jsonError => rw [hp] at h; simp at h
            | validationError => rw [hp] at h; simp at h
      | none => simp at h
  | responseError sc err => simp at h
  | otherError m => simp at h

/-- Witness for C8 at a concrete successful upstream exchange. -/
theorem c8_witness :
    (⟨[], "Fixed.", "hi"⟩ : ApiResponse).original_sentence = "hi" ∧
    ∃ raw c a, (ChatOutcome.ok "raw" (some "payload")) = .ok raw (some c) ∧
      (fun _ => ParseResult.ok ⟨[], "Fixed."⟩ : String → ParseResult) c = .ok a ∧
      (⟨[], "Fixed.", "hi"⟩ : ApiResponse).corrections = a.corrections ∧
      (⟨[], "Fixed.", "hi"⟩ : ApiResponse).correct_sentence = a.correct_sentence :=
  c8_success_preserves_input_and_answer "hi" (fun _ => ParseResult.ok ⟨[], "Fixed."⟩)
    (.ok "raw" (some "payload")) ⟨[], "Fixed.", "hi"⟩ (by decide)

/-- C4: whenever the batch endpoint returns a result list, it has one
entry per input and entry `j` carries input `j` verbatim as
`original_sentence`, whatever the upstream did for each item. -/
theorem c4_batch_preserves_length_and_originals
    (chatB : Nat → Nat → ChatOutcome) (parse : String → ParseResult)
    (texts : List String) (out : List ApiResponse)
    (h : correct_batch_texts chatB parse texts = .ok out) :
    out.length = texts.length ∧
    ∀ j, (out.get? j).map ApiResponse.original_sentence = texts.get? j := by
  unfold correct_batch_texts at h
  by_cases hne : texts = []
  · simp [hne] at h
  · rw [if_neg hne] at h
    simp only [Except.ok.injEq] at h
    subst h
    have hlen := correct_batch_go_length chatB parse texts 0
    refine ⟨hlen, ?_⟩
    intro j
    by_cases hjl : j < texts.length
    · have h2 : j < (correct_batch_go chatB parse 0 texts).length := by
        rw [hlen]; exact hjl
      rw [List.get?_eq_get h2, List.get?_eq_get hjl]
      rw [correct_batch_go_get chatB parse texts 0 j hjl h2]
      simp only [Nat.zero_add, Option.map_some']
      rw [processBatchItem_original]
    · rw [List.get?_eq_none.2 (by omega), List.get?_eq_none.2 (by omega)]
      simp

/-- Witness for C4 at a concrete one-item batch whose upstream succeeds. -/
theorem c4_witness :
    (((correct_batch_go (fun _ _ => ChatOutcome.ok "raw" (some "p"))
        (fun _ => ParseResult.ok ⟨[], "Good."⟩) 0 ["a"]).get? 0).map
          ApiResponse.original_sentence =
      (["a"] : List String).get? 0) :=
  (c4_batch_preserves_length_and_originals
      (fun _ _ => ChatOutcome.ok "raw" (some "p"))
      (fun _ => ParseResult.ok ⟨[], "Good."⟩) ["a"] _ (by decide)).2 0

/-- C5: a failing non-blank item does not abort the batch: the endpoint
still returns the full-length 200 result list, and position `j` holds the
placeholder with empty corrections and the error detail embedded in
`correct_sentence`. -/
theorem c5_item_failure_is_isolated
    (chatB : Nat → Nat → ChatOutcome) (parse : String → ParseResult)
    (texts : List String) (j : Nat) (hj : j < texts.length)
    (hnb : py_strip_empty (texts.get ⟨j, hj⟩) = false)
    (e : HTTPException) (n : Nat)
    (hfail : exception_wrapper
        (get_corrections_oracle (texts.get ⟨j, hj⟩) parse (chatB j)) 5 =
      (.error e, n)) :
    correct_batch_texts chatB parse texts =
      .ok (correct_batch_go chatB parse 0 texts) ∧
    (correct_batch_go chatB parse 0 texts).length = texts.length ∧
    (correct_batch_go chatB parse 0 texts).get? j =
      some ⟨[], "Error: " ++ e.detail, texts.get ⟨j, hj⟩⟩ := by
  have hne : texts ≠ [] := by
    intro hh
    subst hh
    simp at hj
  refine ⟨?_, correct_batch_go_length chatB parse texts 0, ?_⟩
  · unfold correct_batch_texts
    rw [if_neg hne]
  · have h2 : j < (correct_batch_go chatB parse 0 texts).length := by
      rw [correct_batch_go_length]; exact hj
    rw [List.get?_eq_get h2]
    rw [correct_batch_go_get chatB parse texts 0 j hj h2]
    simp only [Nat.zero_add]
    unfold processBatchItem
    rw [hnb]
    simp only [Bool.false_eq_true, if_false]
    rw [hfail]

/-- Witness for C5: a one-item batch whose upstream is down on every
attempt; the item's placeholder embeds the error the wrapper raised. -/
theorem c5_witness :
    correct_batch_texts (fun _ _ => ChatOutcome.responseError 500 "down")
        (fun _ => ParseResult.jsonError) ["x"] =
      .ok (correct_batch_go (fun _ _ => ChatOutcome.responseError 500 "down")
        (fun _ => ParseResult.jsonError) 0 ["x"]) ∧
    (correct_batch_go (fun _ _ => ChatOutcome.responseError 500 "down")
        (fun _ => ParseResult.jsonError) 0 ["x"]).length =
      (["x"] : List String).length ∧
    (correct_batch_go (fun _ _ => ChatOutcome.responseError 500 "down")
        (fun _ => ParseResult.jsonError) 0 ["x"]).get? 0 =
      some ⟨[], "Error: " ++
        "Correction failed after multiple retries without specific error.",
        (["x"] : List String).get ⟨0, by decide⟩⟩ :=
  c5_item_failure_is_isolated (fun _ _ => ChatOutcome.responseError 500 "down")
    (fun _ => ParseResult.jsonError) ["x"] 0 (by decide) (by decide)
    ⟨500, "Correction failed after multiple retries without specific error."⟩ 5
    (by decide)

/-- C6: a blank batch item is answered locally: for any upstream whatever
(so no upstream call is made and the retry wrapper is never entered,
witnessed by the invocation count 0), the item's result is the placeholder
with the raw input, no corrections and an empty `correct_sentence`, and
the whole batch output keeps it at its position. -/
theorem c6_blank_item_short_circuits
    (chatB : Nat → Nat → ChatOutcome) (parse : String → ParseResult)
    (texts : List String) (j : Nat) (hj : j < texts.length)
    (hb : py_strip_empty (texts.get ⟨j, hj⟩) = true) :
    (∀ (parse2 : String → ParseResult) (chat2 : Nat → ChatOutcome),
      processBatchItem parse2 chat2 (texts.get ⟨j, hj⟩) =
        (⟨[], "", texts.get ⟨j, hj⟩⟩, 0)) ∧
    correct_batch_texts chatB parse texts =
      .ok (correct_batch_go chatB parse 0 texts) ∧
    (correct_batch_go chatB parse 0 texts).length = texts.length ∧
    (correct_batch_go chatB parse 0 texts).get? j =
      some ⟨[], "", texts.get ⟨j, hj⟩⟩ := by
  have hne : texts ≠ [] := by
    intro hh
    subst hh
    simp at hj
  have hitem : ∀ (parse2 : String → ParseResult) (chat2 : Nat → ChatOutcome),
      processBatchItem parse2 chat2 (texts.get ⟨j, hj⟩) =
        (⟨[], "", texts.get ⟨j, hj⟩⟩, 0) := by
    intro parse2 chat2
    unfold processBatchItem
    rw [hb]
    simp
  refine ⟨hitem, ?_, correct_batch_go_length chatB parse texts 0, ?_⟩
  · unfold correct_batch_texts
    rw [if_neg hne]
  · have h2 : j < (correct_batch_go chatB parse 0 texts).length := by
      rw [correct_batch_go_length]; exact hj
    rw [List.get?_eq_get h2]
    rw [correct_batch_go_get chatB parse texts 0 j hj h2]
    simp only [Nat.zero_add]
    rw [hitem parse (chatB j)]

/-- Witness for C6 at a concrete batch with a whitespace-only item. -/
theorem c6_witness :
    processBatchItem (fun _ => ParseResult.jsonError)
        (fun _ => ChatOutcome.responseError 500 "down")
        ((["  \t"] : List String).get ⟨0, by decide⟩) =
      (⟨[], "", (["  \t"] : List String).get ⟨0, by decide⟩⟩, 0) ∧
    (correct_batch_go (fun _ _ => ChatOutcome.ok "raw" (some "p"))
        (fun _ => ParseResult.ok ⟨[], "Good."⟩) 0 ["  \t"]).get? 0 =
      some ⟨[], "", (["  \t"] : List String).get ⟨0, by decide⟩⟩ :=
  ⟨(c6_blank_item_short_circuits (fun _ _ => ChatOutcome.ok "raw" (some "p"))
      (fun _ => ParseResult.ok ⟨[], "Good."⟩) ["  \t"] 0 (by decide) (by decide)).1
        (fun _ => ParseResult.jsonError) (fun _ => ChatOutcome.responseError 500 "down"),
   (c6_blank_item_short_circuits (fun _ _ => ChatOutcome.ok "raw" (some "p"))
      (fun _ => ParseResult.ok ⟨[], "Good."⟩) ["  \t"] 0 (by decide) (by decide)).2.2.2⟩

/-- C9: called with the empty string, the single endpoint raises the 400
client-input error with detail `Input text cannot be empty.` and performs
zero invocations of the single-attempt function, for every possible
upstream behavior (so neither the retry wrapper's loop body nor
`get_corrections` ever runs). -/
theorem c9_single_empty_text_rejected (oracle : Nat → AttemptOutcome) :
    correct_single_text oracle "" =
      (.error ⟨400, "Input text cannot be empty."⟩, 0) := by
  unfold correct_single_text
  rw [show py_strip_empty "" = true from by decide]
  simp

/-- C10: any whitespace-only text (not merely the empty string) is likewise
rejected with the 400 before any upstream call, because the emptiness check
strips the text before testing. -/
theorem c10_single_whitespace_text_rejected (oracle : Nat → AttemptOutcome)
    (text : String) (hne : text ≠ "") (hb : py_strip_empty text = true) :
    correct_single_text oracle text =
      (.error ⟨400, "Input text cannot be empty."⟩, 0) := by
  unfold correct_single_text
  rw [hb]
  simp

/-- Witness for C10 at a space-and-tab text. -/
theorem c10_witness :
    (" \t " ≠ "") ∧
    correct_single_text (fun _ => AttemptOutcome.exc "boom") " \t " =
      (.error ⟨400, "Input text cannot be empty."⟩, 0) :=
  ⟨by decide,
   c10_single_whitespace_text_rejected (fun _ => AttemptOutcome.exc "boom")
     " \t " (by decide) (by decide)⟩
